import Mathlib

/-!
# Verification of the PostHog playlist-counter and revenue query-construction core

Shallow embedding of:
* `ee/session_recordings/playlist_counters/recordings_that_match_playlist_filters.py`
  (legacy-filter normalisation, universal-filter translation, recomputation task), and
* `posthog/hogql_queries/web_analytics/revenue_example_data_warehouse_tables_query_runner.py`
  (`to_query` AST construction).

Python dictionaries, lists and scalars are embedded as the JSON-like value type `JVal`.
Python exceptions on the modelled paths become `Except` errors.
-/

/-- A JSON-compatible Python value: `None`, booleans, integers, strings, lists and
(insertion-ordered) dictionaries with string keys. -/
inductive JVal where
  | null
  | bool (b : Bool)
  | num (n : Int)
  | str (s : String)
  | arr (xs : List JVal)
  | obj (kvs : List (String × JVal))
deriving Repr

mutual

/-- Structural equality of JSON values (Python `==` on JSON-compatible data,
with dictionaries compared entry-wise in order). -/
def JVal.beq : JVal → JVal → Bool
  | .null, .null => true
  | .bool a, .bool b => a == b
  | .num a, .num b => a == b
  | .str a, .str b => a == b
  | .arr xs, .arr ys => JVal.beqList xs ys
  | .obj xs, .obj ys => JVal.beqEntries xs ys
  | _, _ => false

/-- Element-wise equality of JSON lists. -/
def JVal.beqList : List JVal → List JVal → Bool
  | [], [] => true
  | x :: xs, y :: ys => JVal.beq x y && JVal.beqList xs ys
  | _, _ => false

/-- Entry-wise equality of JSON dictionary entries. -/
def JVal.beqEntries : List (String × JVal) → List (String × JVal) → Bool
  | [], [] => true
  | (k1, v1) :: xs, (k2, v2) :: ys => k1 == k2 && JVal.beq v1 v2 && JVal.beqEntries xs ys
  | _, _ => false

end

namespace JVal

/-- Python truthiness: `None`, `False`, `0`, `""`, `[]` and `{}` are falsy. -/
def truthy : JVal → Bool
  | null => false
  | bool b => b
  | num n => n != 0
  | str s => s != ""
  | arr xs => !xs.isEmpty
  | obj kvs => !kvs.isEmpty

/-- Whether the value is a dictionary. -/
def isObj : JVal → Bool
  | obj _ => true
  | _ => false

/-- The entries of a dictionary (empty for non-dictionaries). -/
def entries : JVal → List (String × JVal)
  | obj kvs => kvs
  | _ => []

/-- First binding of a key in a dictionary, if any (Python key lookup). -/
def lookup (v : JVal) (k : String) : Option JVal :=
  (v.entries.find? (fun p => p.1 == k)).map Prod.snd

/-- Python `k in d`. -/
def hasKey (v : JVal) (k : String) : Bool :=
  (v.lookup k).isSome

/-- Python `d.get(k, default)`. -/
def getD (v : JVal) (k : String) (d : JVal) : JVal :=
  (v.lookup k).getD d

/-- Python `d.pop(k, None)`'s effect on the dictionary: remove the key. -/
def erase (v : JVal) (k : String) : JVal :=
  match v with
  | obj kvs => obj (kvs.filter (fun p => p.1 != k))
  | w => w

/-- The Python dict-spread update (spread `d`, then set key `k` to `x`): replace the
value of `k` in place if present, else append. -/
def setKey (v : JVal) (k : String) (x : JVal) : JVal :=
  match v with
  | obj kvs =>
    if kvs.any (fun p => p.1 == k) then
      obj (kvs.map (fun p => if p.1 == k then (k, x) else p))
    else
      obj (kvs ++ [(k, x)])
  | w => w

/-- The elements of a list value, or `none` for non-lists. -/
def asList : JVal → Option (List JVal)
  | arr xs => some xs
  | _ => none

/-- Whether the value is exactly the string `s` (Python `v == "s"`). -/
def isStr (v : JVal) (s : String) : Bool :=
  match v with
  | str t => t == s
  | _ => false

/-- Python `x or y`. -/
def orElse (x y : JVal) : JVal :=
  if x.truthy then x else y

end JVal

/-- Failures of the filter translation path. `invalidUniversalFilters` is the source's
`raise Exception("Invalid universal filters")`, an exception carrying only that constant
message and no data. `typeError` stands for a Python `TypeError`/`AttributeError` from
operating on a value of the wrong shape, and `keyError k` for `d[k]` on a missing key. -/
inductive TranslationError where
  | invalidUniversalFilters
  | typeError
  | keyError (k : String)
deriving Repr, DecidableEq

/-- `DEFAULT_RECORDING_FILTERS["duration"]` (source lines 82-89): one recording-property
filter `active_seconds > 5`. `PropertyFilterType.RECORDING` is the string `"recording"`
and `PropertyOperator.GT` the string `"gt"`. -/
def DEFAULT_RECORDING_FILTERS_duration : JVal :=
  .arr [.obj [("type", .str "recording"), ("key", .str "active_seconds"),
              ("value", .num 5), ("operator", .str "gt")]]

/-- `DEFAULT_RECORDING_FILTERS` (source lines 78-91). -/
def DEFAULT_RECORDING_FILTERS : JVal :=
  .obj [("date_from", .str "-3d"), ("date_to", .null),
        ("filter_test_accounts", .bool false),
        ("duration", DEFAULT_RECORDING_FILTERS_duration),
        ("order", .str "start_time")]

/-- `convert_legacy_filters_to_universal_filters` (source lines 102-164). Enumeration
strings follow the schema: `FilterLogicalOperator.AND_` is `"AND"`,
`PropertyOperator.EXACT` is `"exact"`, `PropertyFilterType.LOG_ENTRY` is `"log_entry"`. -/
def convert_legacy_filters_to_universal_filters (filters : JVal) :
    Except TranslationError JVal := do
  -- `filters = filters or {}` followed by `if not filters: return {}`
  if !filters.truthy then return .obj []
  -- every subsequent access treats `filters` as a dictionary
  if !filters.isObj then throw .typeError
  let events ← match (filters.getD "events" (.arr [])).asList with
    | some xs => pure xs
    | none => throw .typeError
  let actions ← match (filters.getD "actions" (.arr [])).asList with
    | some xs => pure xs
    | none => throw .typeError
  let properties ← match (filters.getD "properties" (.arr [])).asList with
    | some xs => pure xs
    | none => throw .typeError
  let log_level_filters :=
    if (filters.getD "console_logs" .null).truthy then
      [JVal.obj [("key", .str "level"), ("value", filters.getD "console_logs" .null),
                 ("operator", .str "exact"), ("type", .str "log_entry")]]
    else []
  let log_query_filters :=
    if (filters.getD "console_search_query" .null).truthy then
      [JVal.obj [("key", .str "message"),
                 ("value", .arr [filters.getD "console_search_query" .null]),
                 ("operator", .str "exact"), ("type", .str "log_entry")]]
    else []
  let srd := filters.getD "session_recording_duration" .null
  let duration ←
    if srd.truthy then
      -- the dict-spread of `filters["session_recording_duration"]` with `"key"` set
      if !srd.isObj then throw .typeError
      else pure [srd.setKey "key"
        (filters.getD "duration_type_filter" (srd.getD "key" (.str "active_seconds")))]
    else pure ([] : List JVal)
  return .obj [
    ("date_from", (filters.getD "date_from" .null).orElse (.str "-3d")),
    ("date_to", (filters.getD "date_to" .null).orElse .null),
    ("filter_test_accounts", filters.getD "filter_test_accounts" (.bool false)),
    ("duration", if duration.isEmpty then DEFAULT_RECORDING_FILTERS_duration
                 else .arr duration),
    ("filter_group", .obj [
      ("type", .str "AND"),
      ("values", .arr [.obj [
        ("type", .str "AND"),
        ("values", .arr (events ++ actions ++ properties
                          ++ log_level_filters ++ log_query_filters))]])]),
    ("order", .str "start_time")]

/-- The translated query record (the constructor arguments of `RecordingsQuery` the
source passes at lines 253-264; the pydantic model itself lives outside this
repository). -/
structure RecordingsQuery where
  order : JVal
  date_from : JVal
  date_to : JVal
  properties : List JVal
  events : List JVal
  actions : List JVal
  console_log_filters : List JVal
  having_predicates : List JVal
  filter_test_accounts : JVal
  operand : JVal
deriving Repr

/-- `asRecordingPropertyFilter` (source lines 94-99): builds a recording property
filter from the `key`, `operator` and `value` entries of the given dictionary; a
missing entry is a Python `KeyError`. -/
def asRecordingPropertyFilter (filter : JVal) : Except TranslationError JVal := do
  if !filter.isObj then throw .typeError
  let k ← match filter.lookup "key" with
    | some v => pure v
    | none => throw (.keyError "key")
  let op ← match filter.lookup "operator" with
    | some v => pure v
    | none => throw (.keyError "operator")
  let v ← match filter.lookup "value" with
    | some v => pure v
    | none => throw (.keyError "value")
  return .obj [("key", k), ("operator", op), ("value", v)]

/-- The destination list a leaf filter is appended to. -/
inductive Bucket where
  | events
  | actions
  | consoleLogs
  | properties
  | having
deriving Repr, DecidableEq

/-- The `visited_page` rewrite (source lines 228-242): a synthetic `$pageview` event
filter with one `$current_url` property carrying the original value and operator. -/
def visitedPageRewrite (f : JVal) : JVal :=
  .obj [("id", .str "$pageview"), ("name", .str "$pageview"), ("type", .str "events"),
        ("properties", .arr [.obj [("type", .str "event"), ("key", .str "$current_url"),
          ("value", f.getD "value" .null), ("operator", f.getD "operator" .null)]])]

/-- Per-leaf dispatch of the translator's loop (source lines 215-249): which list the
leaf filter is appended to, and the value appended there. -/
def dispatchFilter (f : JVal) : Bucket × JVal :=
  let t := f.getD "type" .null
  if t.isStr "events" then (.events, f)
  else if t.isStr "actions" then (.actions, f)
  else if t.isStr "log_entry" then (.consoleLogs, f)
  else if t.isStr "hogql" then (.properties, f)
  else if t.isStr "recording" then
    if (f.getD "key" .null).isStr "visited_page" then (.events, visitedPageRewrite f)
    else if (f.getD "key" .null).isStr "snapshot_source"
            && (f.getD "value" .null).truthy then (.having, f)
    else (.properties, f)
  else (.properties, f)

/-- The five accumulating lists of the translator's loop (source lines 202-206,
without the duration-derived having predicate, which is prepended separately). -/
structure FilterBuckets where
  events : List JVal
  actions : List JVal
  properties : List JVal
  consoleLogs : List JVal
  having : List JVal
deriving Repr

/-- Append a dispatched filter to its destination list. -/
def pushBucket (acc : FilterBuckets) : Bucket × JVal → FilterBuckets
  | (.events, v) => { acc with events := acc.events ++ [v] }
  | (.actions, v) => { acc with actions := acc.actions ++ [v] }
  | (.consoleLogs, v) => { acc with consoleLogs := acc.consoleLogs ++ [v] }
  | (.properties, v) => { acc with properties := acc.properties ++ [v] }
  | (.having, v) => { acc with having := acc.having ++ [v] }

/-- The translator's loop over the extracted leaf filters (source lines 214-249).
`f.get("type")` on a non-dictionary leaf is a Python `AttributeError`. -/
def processFilters (fs : List JVal) : Except TranslationError FilterBuckets :=
  fs.foldlM
    (fun acc f => do
      if !f.isObj then throw TranslationError.typeError
      pure (pushBucket acc (dispatchFilter f)))
    ⟨[], [], [], [], []⟩

/-- Extraction of the inner group's leaf filters (source lines 192-200): requires a
truthy `filter_group` with truthy `values`, takes the first group, and reads its
`values`; otherwise `raise Exception("Invalid universal filters")`. -/
def extractFilters (filters : JVal) : Except TranslationError (List JVal) := do
  let fg := filters.getD "filter_group" .null
  if fg.truthy then
    if !fg.isObj then throw .typeError
    if (fg.getD "values" .null).truthy then
      let vals ← match (fg.getD "values" .null).asList with
        | some xs => pure xs
        | none => throw .typeError
      -- `values[0]`: the truthy list is non-empty
      let group := vals.headD .null
      if group.truthy then
        if !group.isObj then throw .typeError
        if (group.getD "values" .null).truthy then
          match (group.getD "values" .null).asList with
          | some xs => pure xs
          | none => throw .typeError
        else pure []
      else pure []
    else throw .invalidUniversalFilters
  else throw .invalidUniversalFilters

/-- The duration-derived having predicate (source lines 210-212): only the first
entry of the `duration` list is converted; the remaining entries are never read. -/
def durationHaving (filters : JVal) : Except TranslationError (List JVal) := do
  let duration_filters := filters.getD "duration" (.arr [])
  if duration_filters.truthy then
    match duration_filters with
    | .arr (d :: _) => do
        let r ← asRecordingPropertyFilter d
        pure [r]
    | _ => throw .typeError   -- `len` / `[0]` on a truthy non-list
  else pure []

/-- Modelled from the spec: `filter_from_params_to_query` is imported from
`posthog.session_recordings.session_recording_api`, which is not part of this
repository's sources; it is called only for the empty filter document, which the spec
says means "use defaults". We model its result as a default query object. -/
def filter_from_params_to_query (_filters : JVal) : RecordingsQuery :=
  { order := .null, date_from := .null, date_to := .null, properties := [],
    events := [], actions := [], console_log_filters := [], having_predicates := [],
    filter_test_accounts := .null, operand := .str "AND" }

/-- The translator's normalisation step (source lines 181-190): a document carrying a
`filter_group` key is treated as already universal and left unchanged; any other
document is run through `convert_legacy_filters_to_universal_filters`. (Persisting the
converted form and incrementing the conversion counter are external side effects.) -/
def normalize_filters (filters : JVal) : Except TranslationError JVal :=
  if filters.hasKey "filter_group" then .ok filters
  else convert_legacy_filters_to_universal_filters filters

/-- `convert_filters_to_recordings_query` (source lines 167-280), acting on the
playlist's `filters` dictionary. The final pydantic construction (lines 253-264) is
modelled as the record assembly; its schema validation lives outside this repository. -/
def convert_filters_to_recordings_query (filters0 : JVal) :
    Except TranslationError RecordingsQuery := do
  -- `filters.pop("version", None)` / `filters.pop("hogql_filtering", None)`
  if !filters0.isObj then throw .typeError
  let filters1 := (filters0.erase "version").erase "hogql_filtering"
  if !filters1.hasKey "filter_group" && !filters1.truthy then
    return filter_from_params_to_query filters1
  let filters ← normalize_filters filters1
  let extracted ← extractFilters filters
  let durHaving ← durationHaving filters
  let buckets ← processFilters extracted
  return {
    order := filters.getD "order" .null,
    date_from := filters.getD "date_from" .null,
    date_to := filters.getD "date_to" .null,
    properties := buckets.properties,
    events := buckets.events,
    actions := buckets.actions,
    console_log_filters := buckets.consoleLogs,
    having_predicates := durHaving ++ buckets.having,
    filter_test_accounts := filters.getD "filter_test_accounts" .null,
    operand := (filters.getD "filter_group" (.obj [])).getD "type" (.str "AND") }

/-! ## Revenue example data-warehouse tables query runner -/

/-- One entry of `revenueTrackingConfig.dataWarehouseTables`: the fields `to_query`
reads (source lines 36-41). -/
structure DataWarehouseTable where
  tableName : String
  revenueColumn : String
  timestampColumn : String
deriving Repr, DecidableEq

/-- The revenue tracking configuration consulted by `to_query`. The schema's
`dataWarehouseTables` may also be `None`; under the source's truthiness guard
(line 31) that behaves exactly like the empty list, so we embed it as a list. -/
structure RevenueTrackingConfig where
  dataWarehouseTables : List DataWarehouseTable
deriving Repr, DecidableEq

/-- HogQL AST expressions used by `to_query`: `ast.Field` (dotted chain),
`ast.Constant`, `ast.Alias`. -/
inductive Expr where
  | Field (chain : List String)
  | Constant (value : JVal)
  | Alias (name : String) (expr : Expr)
deriving Repr

/-- `ast.OrderExpr`. -/
structure OrderExpr where
  expr : Expr
  order : String
deriving Repr

/-- `ast.JoinExpr` as used here: a bare FROM-clause table reference. -/
structure JoinExpr where
  table : Expr
deriving Repr

/-- `ast.SelectQuery`, restricted to the fields the embedded code constructs. -/
structure SelectQuery where
  select : List Expr
  select_from : Option JoinExpr := none
  order_by : Option (List OrderExpr) := none
  where_cond : Option Expr := none
deriving Repr

/-- Modelled from the spec: `ast.SelectQuery.empty` is defined in `posthog.hogql.ast`,
outside this repository's sources. The spec describes it as an explicitly empty
`SelectQuery`: syntactically valid, yielding zero rows when executed. We model it as a
constant select whose WHERE clause is the constant `false`. -/
def SelectQuery.empty : SelectQuery :=
  { select := [.Constant .null], where_cond := some (.Constant (.bool false)) }

/-- `ast.SelectSetQuery`: member queries combined by a set operator. -/
structure SelectSetQuery where
  queries : List SelectQuery
  set_operator : String
deriving Repr

/-- Modelled from the spec: `ast.SelectSetQuery.create_from_queries` is defined
outside this repository's sources; the spec says the per-table queries are combined
"with a UNION ALL into a SelectSetQuery". We model the combined query as the list of
member queries together with the set operator. -/
def SelectSetQuery.create_from_queries (qs : List SelectQuery) (op : String) :
    SelectSetQuery :=
  ⟨qs, op⟩

/-- The per-table `SelectQuery` built in the loop of `to_query` (source lines 33-44). -/
def tableSelectQuery (table : DataWarehouseTable) : SelectQuery :=
  { select := [.Alias "table_name" (.Constant (.str table.tableName)),
               .Alias "revenue" (.Field [table.tableName, table.revenueColumn])],
    select_from := some ⟨.Field [table.tableName]⟩,
    order_by := some [⟨.Field [table.tableName, table.timestampColumn], "DESC"⟩] }

/-- `RevenueExampleDataWarehouseTablesQueryRunner.to_query` (source lines 26-50):
one query per configured table, an explicitly empty query when there are none, a
`UNION ALL` set query otherwise. Total: no path raises. -/
def to_query (tracking_config : RevenueTrackingConfig) : Sum SelectQuery SelectSetQuery :=
  let queries := tracking_config.dataWarehouseTables.map tableSelectQuery
  if queries.length = 0 then .inl SelectQuery.empty
  else .inr (SelectSetQuery.create_from_queries queries "UNION ALL")

/-- Row-count semantics for the SELECT queries built here, against an environment
giving each table's row count: the FROM clause supplies the rows of the named table
(one unit row when absent), and a constant-`false` WHERE clause removes every row. -/
def SelectQuery.rowCount (env : String → Nat) (q : SelectQuery) : Nat :=
  let base : Nat :=
    match q.select_from with
    | none => 1
    | some j =>
      match j.table with
      | .Field (t :: _) => env t
      | _ => 0
  match q.where_cond with
  | some (.Constant v) => if v.truthy then base else 0
  | _ => base

/-! ## The recomputation task -/

/-- Terminal outcomes of one invocation of the counting task, mirroring the counters
the source increments: cooldown skip, default-filters skip, success, failure
(the generic `except` branch), and the missing-playlist outcome. -/
inductive TaskOutcome where
  | skippedCooldown
  | skippedDefaultFilters
  | succeeded
  | failed
  | unknownPlaylist
deriving Repr, DecidableEq

/-- The observable result of one task invocation: the cache value stored under the
playlist's key after the run, the number of query-engine executions performed, and
the terminal outcome. -/
structure TaskResult where
  cache : Option JVal
  engineExecutions : Nat
  outcome : TaskOutcome
deriving Repr

/-- The portion of the task after the cooldown check (source lines 322-347):
default-filters skip, translation, one engine execution, and the cache write. -/
def runCountAndStore (filters existing : JVal) (cache0 : Option JVal) (now : Int)
    (engineSessionIds : List String) (engineHasMore : Bool) : TaskResult :=
  if JVal.beq filters DEFAULT_RECORDING_FILTERS then
    ⟨cache0, 0, .skippedDefaultFilters⟩
  else
    match convert_filters_to_recordings_query filters with
    | .error _ => ⟨cache0, 0, .failed⟩
    | .ok _ =>
      let newValue := JVal.obj [
        ("session_ids", .arr (engineSessionIds.map .str)),
        ("has_more", .bool engineHasMore),
        ("previous_ids", existing.getD "session_ids" .null),
        ("refreshed_at", .num now)]
      ⟨some newValue, 1, .succeeded⟩

/-- `count_recordings_that_match_playlist_filters` (source lines 299-380) with its
state passed explicitly: the playlist's filters (`none` when the playlist row does not
exist), the redis value stored under the playlist's key, the current time and the
cooldown (ISO timestamps are embedded as integer epoch seconds, so the `int(...)`
truncation of fractional seconds is exact), and the result of
`list_recordings_from_query` (the single engine execution). A present `refreshed_at`
that is not a timestamp makes `datetime.fromisoformat` raise, landing in the generic
`except` branch. -/
def count_recordings_that_match_playlist_filters
    (playlistFilters : Option JVal) (cache0 : Option JVal)
    (now cooldownSeconds : Int)
    (engineSessionIds : List String) (engineHasMore : Bool) : TaskResult :=
  match playlistFilters with
  | none => ⟨cache0, 0, .unknownPlaylist⟩
  | some filters =>
    let existing := cache0.getD (.obj [])
    let refreshed := existing.getD "refreshed_at" .null
    if refreshed.truthy then
      match refreshed with
      | .num t =>
        if now - t ≤ cooldownSeconds then ⟨cache0, 0, .skippedCooldown⟩
        else runCountAndStore filters existing cache0 now engineSessionIds engineHasMore
      | _ => ⟨cache0, 0, .failed⟩
    else runCountAndStore filters existing cache0 now engineSessionIds engineHasMore

/-! ## Shared test documents -/

/-- A universal filter document whose inner group holds exactly the one leaf `f`. -/
def singleLeafDoc (f : JVal) : JVal :=
  .obj [("filter_group", .obj [("type", .str "AND"),
    ("values", .arr [.obj [("type", .str "AND"), ("values", .arr [f])]])])]

/-- The number of leaf filters in the inner group of a conversion result (`0` for
errors or documents without the two-level group shape): a projection that tells
converted documents apart. -/
def innerGroupSize : Except TranslationError JVal → Nat
  | .ok d =>
    match ((((d.getD "filter_group" .null).getD "values" (.arr [])).asList.getD
        []).headD .null).getD "values" .null with
    | .arr xs => xs.length
    | _ => 0
  | .error _ => 0

/-! ## Computation lemmas for the JSON primitives -/

namespace JVal

@[simp] theorem entries_obj (kvs : List (String × JVal)) : (JVal.obj kvs).entries = kvs := rfl

@[simp] theorem lookup_obj_nil (k : String) : (JVal.obj []).lookup k = none := rfl

@[simp] theorem lookup_obj_cons (k k' : String) (x : JVal) (rest : List (String × JVal)) :
    (JVal.obj ((k', x) :: rest)).lookup k
      = if k' == k then some x else (JVal.obj rest).lookup k := by
  by_cases h : (k' == k) = true
  · simp [JVal.lookup, List.find?_cons_of_pos, h]
  · simp only [Bool.not_eq_true] at h
    simp [JVal.lookup, List.find?_cons_of_neg, h]

@[simp] theorem getD_obj_nil (k : String) (d : JVal) : (JVal.obj []).getD k d = d := rfl

@[simp] theorem getD_obj_cons (k k' : String) (x d : JVal) (rest : List (String × JVal)) :
    (JVal.obj ((k', x) :: rest)).getD k d
      = if k' == k then x else (JVal.obj rest).getD k d := by
  by_cases h : (k' == k) = true <;> simp [JVal.getD, h]

@[simp] theorem hasKey_obj_nil (k : String) : (JVal.obj []).hasKey k = false := rfl

@[simp] theorem hasKey_obj_cons (k k' : String) (x : JVal) (rest : List (String × JVal)) :
    (JVal.obj ((k', x) :: rest)).hasKey k
      = (k' == k || (JVal.obj rest).hasKey k) := by
  by_cases h : (k' == k) = true <;> simp [JVal.hasKey, h]

@[simp] theorem erase_obj_nil (k : String) : (JVal.obj []).erase k = JVal.obj [] := rfl

@[simp] theorem erase_obj_cons (k k' : String) (x : JVal) (rest : List (String × JVal)) :
    (JVal.obj ((k', x) :: rest)).erase k
      = if k' == k then (JVal.obj rest).erase k
        else JVal.obj ((k', x) :: ((JVal.obj rest).erase k).entries) := by
  by_cases h : (k' == k) = true <;> simp [JVal.erase, List.filter, bne, h]

@[simp] theorem truthy_null : JVal.null.truthy = false := rfl
@[simp] theorem truthy_bool (b : Bool) : (JVal.bool b).truthy = b := rfl
@[simp] theorem truthy_num (n : Int) : (JVal.num n).truthy = (n != 0) := rfl
@[simp] theorem truthy_str (s : String) : (JVal.str s).truthy = (s != "") := rfl
@[simp] theorem truthy_arr (xs : List JVal) : (JVal.arr xs).truthy = !xs.isEmpty := rfl
@[simp] theorem truthy_obj (kvs : List (String × JVal)) :
    (JVal.obj kvs).truthy = !kvs.isEmpty := rfl

@[simp] theorem isObj_null : JVal.null.isObj = false := rfl
@[simp] theorem isObj_bool (b : Bool) : (JVal.bool b).isObj = false := rfl
@[simp] theorem isObj_num (n : Int) : (JVal.num n).isObj = false := rfl
@[simp] theorem isObj_str (s : String) : (JVal.str s).isObj = false := rfl
@[simp] theorem isObj_arr (xs : List JVal) : (JVal.arr xs).isObj = false := rfl
@[simp] theorem isObj_obj (kvs : List (String × JVal)) : (JVal.obj kvs).isObj = true := rfl

@[simp] theorem isStr_null (s : String) : JVal.null.isStr s = false := rfl
@[simp] theorem isStr_bool (b : Bool) (s : String) : (JVal.bool b).isStr s = false := rfl
@[simp] theorem isStr_num (n : Int) (s : String) : (JVal.num n).isStr s = false := rfl
@[simp] theorem isStr_str (t s : String) : (JVal.str t).isStr s = (t == s) := rfl
@[simp] theorem isStr_arr (xs : List JVal) (s : String) : (JVal.arr xs).isStr s = false := rfl
@[simp] theorem isStr_obj (kvs : List (String × JVal)) (s : String) :
    (JVal.obj kvs).isStr s = false := rfl

@[simp] theorem asList_null : JVal.null.asList = none := rfl
@[simp] theorem asList_bool (b : Bool) : (JVal.bool b).asList = none := rfl
@[simp] theorem asList_num (n : Int) : (JVal.num n).asList = none := rfl
@[simp] theorem asList_str (s : String) : (JVal.str s).asList = none := rfl
@[simp] theorem asList_arr (xs : List JVal) : (JVal.arr xs).asList = some xs := rfl
@[simp] theorem asList_obj (kvs : List (String × JVal)) : (JVal.obj kvs).asList = none := rfl

/-- A value equal (as a Python value) to the string `s` is that string. -/
theorem eq_str_of_isStr {v : JVal} {s : String} (h : v.isStr s = true) : v = .str s := by
  cases v <;> simp_all [JVal.isStr]

/-- Erasing a key preserves being a dictionary. -/
@[simp] theorem isObj_erase (v : JVal) (k : String) : (v.erase k).isObj = v.isObj := by
  cases v <;> rfl

/-- Rebuilding a dictionary from the entries of an erased dictionary is a no-op. -/
@[simp] theorem obj_entries_of_erase (v : JVal) (k : String) (h : v.isObj = true) :
    JVal.obj ((v.erase k).entries) = v.erase k := by
  cases v <;> simp_all [JVal.erase, JVal.entries]

/-- `get` of an absent key returns the default. -/
theorem getD_of_lookup_none {v : JVal} {k : String} (h : v.lookup k = none) :
    ∀ d, v.getD k d = d := by
  intro d
  simp [JVal.getD, h]

/-- `find?` commutes with a `filter` whose predicate is implied by the search. -/
theorem find?_filter_eq {α} (p q : α → Bool) (l : List α)
    (h : ∀ a, p a = true → q a = true) :
    (l.filter q).find? p = l.find? p := by
  induction l with
  | nil => rfl
  | cons a l ih =>
    by_cases hpa : p a = true
    · have hqa := h a hpa
      simp [List.filter_cons, hqa, List.find?_cons_of_pos, hpa]
    · by_cases hqa : q a = true
      · simp only [Bool.not_eq_true] at hpa
        simp [List.filter_cons, hqa, List.find?_cons_of_neg, hpa, ih]
      · simp only [Bool.not_eq_true] at hpa hqa
        simp [List.filter_cons, hqa, List.find?_cons_of_neg, hpa, ih]

/-- Removing one key leaves lookups of a different key unchanged. -/
@[simp] theorem lookup_erase_ne (v : JVal) (k k' : String) (h : (k == k') = false) :
    (v.erase k').lookup k = v.lookup k := by
  cases v with
  | obj l =>
    simp only [JVal.erase, JVal.lookup, JVal.entries]
    rw [find?_filter_eq]
    intro a hpa
    have : a.1 = k := by simpa using hpa
    subst this
    simpa [bne] using h
  | null => rfl
  | bool b => rfl
  | num n => rfl
  | str s => rfl
  | arr xs => rfl

/-- Removing one key leaves `get` of a different key unchanged. -/
@[simp] theorem getD_erase_ne (v : JVal) (k k' : String) (d : JVal)
    (h : (k == k') = false) :
    (v.erase k').getD k d = v.getD k d := by
  simp [JVal.getD, h]

/-- Removing one key leaves membership of a different key unchanged. -/
@[simp] theorem hasKey_erase_ne (v : JVal) (k k' : String) (h : (k == k') = false) :
    (v.erase k').hasKey k = v.hasKey k := by
  simp [JVal.hasKey, h]

end JVal

/-! ## Reduction helpers for `Except` programs -/

@[simp] theorem exceptBind_ok {ε α β : Type _} (a : α) (f : α → Except ε β) :
    (Except.ok a : Except ε α) >>= f = f a := rfl

@[simp] theorem exceptBind_error {ε α β : Type _} (e : ε) (f : α → Except ε β) :
    (Except.error e : Except ε α) >>= f = Except.error e := rfl

@[simp] theorem exceptPure_eq_ok {ε α : Type _} (a : α) :
    (pure a : Except ε α) = .ok a := rfl

@[simp] theorem exceptThrow_eq_error {ε α : Type _} (e : ε) :
    (throw e : Except ε α) = .error e := rfl

/-- Inversion for a successful `Except` bind. -/
theorem exceptBind_eq_ok {ε α β : Type _} {x : Except ε α} {f : α → Except ε β} {b : β}
    (h : x >>= f = .ok b) : ∃ a, x = .ok a ∧ f a = .ok b := by
  cases x with
  | ok a => exact ⟨a, rfl, h⟩
  | error e => simp at h

/-! ## Claim theorems -/

/-- C4: when the revenue query's tracking configuration contains zero
data-warehouse tables, `to_query` returns the explicitly empty `SelectQuery` — a
syntactically valid query whose row count is zero in every environment — and, being a
total function, never raises. -/
theorem C4_zero_tables_empty_select (cfg : RevenueTrackingConfig)
    (h : cfg.dataWarehouseTables = []) :
    to_query cfg = .inl SelectQuery.empty
      ∧ ∀ env : String → Nat, SelectQuery.empty.rowCount env = 0 := by
  refine ⟨?_, fun env => rfl⟩
  simp [to_query, h]

/-- Witness for C4 at the concrete empty configuration. -/
theorem C4_zero_tables_empty_select_witness :
    to_query ⟨[]⟩ = .inl SelectQuery.empty
      ∧ ∀ env : String → Nat, SelectQuery.empty.rowCount env = 0 :=
  C4_zero_tables_empty_select ⟨[]⟩ rfl

/-- C5: for every tracking configuration with at least two data-warehouse tables,
`to_query` emits exactly one `SelectQuery` per table — selecting the literal table name
aliased `table_name` and the revenue column as a dotted field chain into that table,
ordered descending by that table's timestamp column — and combines them into a single
`SelectSetQuery` with the `UNION ALL` set operator. -/
theorem C5_union_all_per_table (cfg : RevenueTrackingConfig)
    (h : 2 ≤ cfg.dataWarehouseTables.length) :
    to_query cfg = .inr
      { queries := cfg.dataWarehouseTables.map (fun table =>
          { select := [.Alias "table_name" (.Constant (.str table.tableName)),
                       .Alias "revenue" (.Field [table.tableName, table.revenueColumn])],
            select_from := some ⟨.Field [table.tableName]⟩,
            order_by := some [⟨.Field [table.tableName, table.timestampColumn], "DESC"⟩] }),
        set_operator := "UNION ALL" } := by
  have hnil : ¬ cfg.dataWarehouseTables = [] := by
    intro he
    rw [he] at h
    simp at h
  simp [to_query, SelectSetQuery.create_from_queries, tableSelectQuery,
    List.length_eq_zero, hnil]

/-- Witness for C5 at a concrete two-table configuration. -/
theorem C5_union_all_per_table_witness :
    to_query ⟨[⟨"stripe_charges", "amount", "created_at"⟩,
               ⟨"shop_orders", "total", "ordered_at"⟩]⟩ = .inr
      { queries := ([⟨"stripe_charges", "amount", "created_at"⟩,
                     ⟨"shop_orders", "total", "ordered_at"⟩] :
                      List DataWarehouseTable).map (fun table =>
          { select := [.Alias "table_name" (.Constant (.str table.tableName)),
                       .Alias "revenue" (.Field [table.tableName, table.revenueColumn])],
            select_from := some ⟨.Field [table.tableName]⟩,
            order_by := some [⟨.Field [table.tableName, table.timestampColumn], "DESC"⟩] }),
        set_operator := "UNION ALL" } :=
  C5_union_all_per_table _ (by decide)

/-- C6: a `recording`-type leaf filter with key `visited_page`, value `"/pricing"`
and operator `exact` translates into an events list containing exactly one `$pageview`
event filter whose nested property list has exactly one `$current_url` entry carrying
the original value and operator, and the original filter is not added to `properties`
(which stays empty). -/
theorem C6_visited_page_rewrite (f : JVal)
    (hobj : f.isObj = true)
    (ht : f.getD "type" .null = .str "recording")
    (hk : f.getD "key" .null = .str "visited_page")
    (hv : f.getD "value" .null = .str "/pricing")
    (hop : f.getD "operator" .null = .str "exact") :
    convert_filters_to_recordings_query (singleLeafDoc f) = .ok
      { order := .null, date_from := .null, date_to := .null,
        properties := [],
        events := [.obj [("id", .str "$pageview"), ("name", .str "$pageview"),
          ("type", .str "events"),
          ("properties", .arr [.obj [("type", .str "event"), ("key", .str "$current_url"),
            ("value", .str "/pricing"), ("operator", .str "exact")]])]],
        actions := [], console_log_filters := [], having_predicates := [],
        filter_test_accounts := .null, operand := .str "AND" } := by
  simp [convert_filters_to_recordings_query, singleLeafDoc, normalize_filters,
    extractFilters, durationHaving, processFilters, dispatchFilter, visitedPageRewrite,
    hobj, ht, hk, hv, hop, pushBucket]

/-- Witness for C6 at the concrete leaf filter from the spec. -/
theorem C6_visited_page_rewrite_witness :
    convert_filters_to_recordings_query (singleLeafDoc (.obj
      [("type", .str "recording"), ("key", .str "visited_page"),
       ("value", .str "/pricing"), ("operator", .str "exact")])) = .ok
      { order := .null, date_from := .null, date_to := .null,
        properties := [],
        events := [.obj [("id", .str "$pageview"), ("name", .str "$pageview"),
          ("type", .str "events"),
          ("properties", .arr [.obj [("type", .str "event"), ("key", .str "$current_url"),
            ("value", .str "/pricing"), ("operator", .str "exact")]])]],
        actions := [], console_log_filters := [], having_predicates := [],
        filter_test_accounts := .null, operand := .str "AND" } :=
  C6_visited_page_rewrite _ rfl rfl rfl rfl rfl

/-- C7: a `recording`-type leaf filter with key `snapshot_source` and a truthy
(non-empty) value is appended to `having_predicates` and not to `properties`. -/
theorem C7_snapshot_source_to_having (f : JVal)
    (hobj : f.isObj = true)
    (ht : f.getD "type" .null = .str "recording")
    (hk : f.getD "key" .null = .str "snapshot_source")
    (hv : (f.getD "value" .null).truthy = true) :
    convert_filters_to_recordings_query (singleLeafDoc f) = .ok
      { order := .null, date_from := .null, date_to := .null,
        properties := [], events := [], actions := [], console_log_filters := [],
        having_predicates := [f],
        filter_test_accounts := .null, operand := .str "AND" } := by
  simp [convert_filters_to_recordings_query, singleLeafDoc, normalize_filters,
    extractFilters, durationHaving, processFilters, dispatchFilter,
    hobj, ht, hk, hv, pushBucket]

/-- Witness for C7 at a concrete `snapshot_source` leaf filter. -/
theorem C7_snapshot_source_to_having_witness :
    convert_filters_to_recordings_query (singleLeafDoc (.obj
      [("type", .str "recording"), ("key", .str "snapshot_source"),
       ("value", .arr [.str "web"]), ("operator", .str "exact")])) = .ok
      { order := .null, date_from := .null, date_to := .null,
        properties := [], events := [], actions := [], console_log_filters := [],
        having_predicates := [.obj
          [("type", .str "recording"), ("key", .str "snapshot_source"),
           ("value", .arr [.str "web"]), ("operator", .str "exact")]],
        filter_test_accounts := .null, operand := .str "AND" } :=
  C7_snapshot_source_to_having _ rfl rfl rfl rfl

/-- C9: when the cached record's `refreshed_at` is within the cooldown window
(`now - refreshedAt ≤ cooldownSeconds`), the task performs zero query-engine
executions and leaves the cache entry unchanged, terminating in the counted
cooldown skip. -/
theorem C9_cooldown_skip (filters c : JVal) (t now cooldown : Int)
    (ids : List String) (hm : Bool)
    (href : c.getD "refreshed_at" .null = .num t) (ht0 : t ≠ 0)
    (hcool : now - t ≤ cooldown) :
    count_recordings_that_match_playlist_filters (some filters) (some c) now cooldown
        ids hm
      = ⟨some c, 0, .skippedCooldown⟩ := by
  simp [count_recordings_that_match_playlist_filters, href, JVal.truthy, ht0, hcool]

/-- Witness for C9: record refreshed 10 seconds ago with a 300-second cooldown. -/
theorem C9_cooldown_skip_witness :
    count_recordings_that_match_playlist_filters
        (some (.obj [("events", .arr [])]))
        (some (.obj [("session_ids", .arr []), ("refreshed_at", .num 1000)]))
        1010 300 [] false
      = ⟨some (.obj [("session_ids", .arr []), ("refreshed_at", .num 1000)]),
         0, .skippedCooldown⟩ :=
  C9_cooldown_skip _ _ 1000 1010 300 [] false rfl (by decide) (by decide)

/-- C10: the leaf dispatch is total over filter kinds: a leaf whose `type` is none
of `events`, `actions`, `log_entry`, `hogql` or `recording` goes to `properties`, and
so does a `recording` leaf whose key is neither `visited_page` nor `snapshot_source`
with a truthy value; the translator's loop never fails on such a leaf. -/
theorem C10_dispatch_total_fallback (f t : JVal)
    (hobj : f.isObj = true) (ht : f.getD "type" .null = t)
    (hcase :
      (t.isStr "events" = false ∧ t.isStr "actions" = false
        ∧ t.isStr "log_entry" = false ∧ t.isStr "hogql" = false
        ∧ t.isStr "recording" = false)
      ∨ (t.isStr "recording" = true
          ∧ (f.getD "key" .null).isStr "visited_page" = false
          ∧ ((f.getD "key" .null).isStr "snapshot_source" = false
              ∨ (f.getD "value" .null).truthy = false))) :
    dispatchFilter f = (Bucket.properties, f)
      ∧ processFilters [f] = .ok ⟨[], [], [f], [], []⟩ := by
  have hd : dispatchFilter f = (Bucket.properties, f) := by
    rcases hcase with ⟨h1, h2, h3, h4, h5⟩ | ⟨h1, h2, h3⟩
    · simp [dispatchFilter, ht, h1, h2, h3, h4, h5]
    · have ht' := JVal.eq_str_of_isStr h1
      subst ht'
      rcases h3 with h3 | h3 <;> simp [dispatchFilter, ht, h2, h3]
  refine ⟨hd, ?_⟩
  simp [processFilters, hobj, hd, pushBucket]

/-- Witness for C10 at a leaf of the unhandled kind `cohort`. -/
theorem C10_dispatch_total_fallback_witness :
    dispatchFilter (.obj [("type", .str "cohort"), ("key", .str "id")])
        = (Bucket.properties, .obj [("type", .str "cohort"), ("key", .str "id")])
      ∧ processFilters [.obj [("type", .str "cohort"), ("key", .str "id")]]
        = .ok ⟨[], [], [.obj [("type", .str "cohort"), ("key", .str "id")]], [], []⟩ :=
  C10_dispatch_total_fallback _ _ rfl rfl (Or.inl (by decide))

/-- C1 counterexample: two different documents lacking a recognizable group
structure fail with literally the same error value — the constant
`Invalid universal filters` exception, a nullary value of `TranslationError` — so the
failure captures neither the full raw document nor the partial decomposition, contrary
to the claim. (The third conjunct records that the two documents differ.) -/
theorem C1_error_captures_nothing_counterexample :
    convert_filters_to_recordings_query (.obj [("filter_group", .obj [])])
        = .error .invalidUniversalFilters
      ∧ convert_filters_to_recordings_query
          (.obj [("filter_group", .null), ("date_from", .str "-7d")])
        = .error .invalidUniversalFilters
      ∧ JVal.beq (.obj [("filter_group", .obj [])])
          (.obj [("filter_group", .null), ("date_from", .str "-7d")]) = false :=
  ⟨rfl, rfl, rfl⟩

/-- C1 (amended): a filter document treated as universal (it carries a
`filter_group` key after the `version`/`hogql_filtering` pops) whose group structure
is not usable — the group is falsy, or is a dictionary with falsy/absent `values` —
makes the translator fail with the constant `Invalid universal filters` error rather
than return a query or silently drop data; the error carries only that message. -/
theorem C1_unrecognizable_group_fails (doc fg : JVal)
    (hobj : doc.isObj = true)
    (hkey : ((doc.erase "version").erase "hogql_filtering").hasKey "filter_group" = true)
    (hfg : ((doc.erase "version").erase "hogql_filtering").getD "filter_group" .null = fg)
    (hbad : fg.truthy = false
            ∨ (fg.isObj = true ∧ (fg.getD "values" .null).truthy = false)) :
    convert_filters_to_recordings_query doc = .error .invalidUniversalFilters := by
  rcases hbad with hb | ⟨hb1, hb2⟩
  · simp [convert_filters_to_recordings_query, normalize_filters, extractFilters,
      hobj, hkey, hfg, hb]
  · by_cases ht : fg.truthy = true
    · simp [convert_filters_to_recordings_query, normalize_filters, extractFilters,
        hobj, hkey, hfg, ht, hb1, hb2]
    · simp only [Bool.not_eq_true] at ht
      simp [convert_filters_to_recordings_query, normalize_filters, extractFilters,
        hobj, hkey, hfg, ht]

/-- Witness for C1 (amended): a document whose group has no `values` list. -/
theorem C1_unrecognizable_group_fails_witness :
    convert_filters_to_recordings_query
        (.obj [("filter_group", .obj [("type", .str "AND")]), ("order", .str "start_time")])
      = .error .invalidUniversalFilters :=
  C1_unrecognizable_group_fails _ (.obj [("type", .str "AND")]) rfl rfl rfl
    (Or.inr ⟨rfl, rfl⟩)

/-- The output of a successful legacy conversion is already normal: re-normalising it
changes nothing (an empty output converts to itself; a non-empty output carries the
`filter_group` marker and is left unchanged by `normalize_filters`). -/
theorem convert_legacy_output_normal (x : JVal) :
    (convert_legacy_filters_to_universal_filters x >>= normalize_filters)
      = convert_legacy_filters_to_universal_filters x := by
  by_cases h1 : x.truthy = true
  · by_cases h2 : x.isObj = true
    · cases he : (x.getD "events" (.arr [])).asList with
      | none => simp [convert_legacy_filters_to_universal_filters, h1, h2, he]
      | some es =>
        cases ha : (x.getD "actions" (.arr [])).asList with
        | none => simp [convert_legacy_filters_to_universal_filters, h1, h2, he, ha]
        | some as =>
          cases hp : (x.getD "properties" (.arr [])).asList with
          | none =>
            simp [convert_legacy_filters_to_universal_filters, h1, h2, he, ha, hp]
          | some ps =>
            by_cases hs : (x.getD "session_recording_duration" .null).truthy = true
            · by_cases hso : (x.getD "session_recording_duration" .null).isObj = true
              · simp [convert_legacy_filters_to_universal_filters, normalize_filters,
                  h1, h2, he, ha, hp, hs, hso]
              · simp [convert_legacy_filters_to_universal_filters,
                  h1, h2, he, ha, hp, hs, hso]
            · simp [convert_legacy_filters_to_universal_filters, normalize_filters,
                h1, h2, he, ha, hp, hs]
    · simp [convert_legacy_filters_to_universal_filters, h1, h2]
  · simp [convert_legacy_filters_to_universal_filters, normalize_filters, h1]

/-- C2 counterexample: the bare `convert_legacy_filters_to_universal_filters` is
not idempotent. Converting `{"events": [e]}` yields a universal document whose inner
group holds the one event leaf; converting that output again (it has no `events` key,
and the function does not check for the `filter_group` marker) yields a document whose
inner group is empty. In particular a document already carrying a top-level group
marker is not returned unchanged by this function. -/
theorem C2_not_idempotent_counterexample :
    (convert_legacy_filters_to_universal_filters
        (.obj [("events", .arr [.obj [("id", .str "$pageview"), ("type", .str "events")]])])
       >>= convert_legacy_filters_to_universal_filters)
      ≠ convert_legacy_filters_to_universal_filters
          (.obj [("events", .arr [.obj [("id", .str "$pageview"), ("type", .str "events")]])]) :=
  fun h => absurd (congrArg innerGroupSize h) (by decide)

/-- C2 (amended): the normalisation step as the translator actually performs it —
documents carrying a top-level `filter_group` marker are returned as-is, all others go
through the legacy conversion — is idempotent: re-normalising the result of
`normalize_filters` changes nothing. -/
theorem C2_guarded_normalize_idempotent (x : JVal) :
    (normalize_filters x >>= normalize_filters) = normalize_filters x := by
  by_cases h : x.hasKey "filter_group" = true
  · rw [show normalize_filters x = .ok x by simp [normalize_filters, h]]
    simp [normalize_filters, h]
  · simp only [Bool.not_eq_true] at h
    rw [show normalize_filters x = convert_legacy_filters_to_universal_filters x by
      simp [normalize_filters, h]]
    exact convert_legacy_output_normal x

/-- C3: every non-empty legacy filter document (whose `events`/`actions`/
`properties` entries, when present, are lists, and whose truthy
`session_recording_duration` is a dictionary — otherwise the conversion raises)
converts to a document whose `filter_group` is exactly one top-level AND group
containing exactly one inner AND group, and the inner group's children count is
(#events) + (#actions) + (#properties) + (1 if `console_logs` is set, i.e. truthy)
+ (1 if `console_search_query` is set). -/
theorem C3_legacy_group_shape (x : JVal) (es as ps : List JVal)
    (hobj : x.isObj = true) (hne : x.truthy = true)
    (he : x.getD "events" (.arr []) = .arr es)
    (ha : x.getD "actions" (.arr []) = .arr as)
    (hp : x.getD "properties" (.arr []) = .arr ps)
    (hd : (x.getD "session_recording_duration" .null).truthy = true →
          (x.getD "session_recording_duration" .null).isObj = true) :
    ∃ y inner,
      convert_legacy_filters_to_universal_filters x = .ok y
      ∧ y.getD "filter_group" .null
          = .obj [("type", .str "AND"),
                  ("values", .arr [.obj [("type", .str "AND"), ("values", .arr inner)]])]
      ∧ inner.length
          = es.length + as.length + ps.length
            + (if (x.getD "console_logs" .null).truthy then 1 else 0)
            + (if (x.getD "console_search_query" .null).truthy then 1 else 0) := by
  have hmain : ∃ dur,
      convert_legacy_filters_to_universal_filters x = .ok (.obj [
        ("date_from", (x.getD "date_from" .null).orElse (.str "-3d")),
        ("date_to", (x.getD "date_to" .null).orElse .null),
        ("filter_test_accounts", x.getD "filter_test_accounts" (.bool false)),
        ("duration", dur),
        ("filter_group", .obj [("type", .str "AND"),
          ("values", .arr [.obj [("type", .str "AND"),
            ("values", .arr (es ++ as ++ ps
              ++ (if (x.getD "console_logs" .null).truthy then
                    [JVal.obj [("key", .str "level"),
                               ("value", x.getD "console_logs" .null),
                               ("operator", .str "exact"), ("type", .str "log_entry")]]
                  else [])
              ++ (if (x.getD "console_search_query" .null).truthy then
                    [JVal.obj [("key", .str "message"),
                               ("value", .arr [x.getD "console_search_query" .null]),
                               ("operator", .str "exact"), ("type", .str "log_entry")]]
                  else [])))]])]),
        ("order", .str "start_time")]) := by
    by_cases hs : (x.getD "session_recording_duration" .null).truthy = true
    · have hso := hd hs
      exact ⟨.arr [(x.getD "session_recording_duration" .null).setKey "key"
          (x.getD "duration_type_filter"
            ((x.getD "session_recording_duration" .null).getD "key"
              (.str "active_seconds")))],
        by simp [convert_legacy_filters_to_universal_filters, hne, hobj,
          he, ha, hp, hs, hso]⟩
    · exact ⟨DEFAULT_RECORDING_FILTERS_duration,
        by simp [convert_legacy_filters_to_universal_filters, hne, hobj,
          he, ha, hp, hs]⟩
  obtain ⟨dur, hy⟩ := hmain
  refine ⟨_, es ++ as ++ ps
      ++ (if (x.getD "console_logs" .null).truthy then
            [JVal.obj [("key", .str "level"), ("value", x.getD "console_logs" .null),
                       ("operator", .str "exact"), ("type", .str "log_entry")]]
          else [])
      ++ (if (x.getD "console_search_query" .null).truthy then
            [JVal.obj [("key", .str "message"),
                       ("value", .arr [x.getD "console_search_query" .null]),
                       ("operator", .str "exact"), ("type", .str "log_entry")]]
          else []), hy, by simp, ?_⟩
  simp only [List.length_append, apply_ite List.length, List.length_singleton,
    List.length_nil]

/-- Leaf extraction reads only the `filter_group` entry: any other leading entry is
ignored. -/
@[simp] theorem extractFilters_obj_cons_ne (k : String) (v : JVal)
    (rest : List (String × JVal)) (h : (k == "filter_group") = false) :
    extractFilters (.obj ((k, v) :: rest)) = extractFilters (.obj rest) := by
  simp [extractFilters, h]

/-- C8: on a universal filter document (one whose remaining entries carry a
`filter_group` key and no other `duration` binding), exactly the first entry of a
non-empty `duration` array becomes a having-predicate of the resulting query — the
first predicate, converted through `asRecordingPropertyFilter` — and all later entries
are discarded (replacing the tail `ds` by nothing changes nothing); an empty or absent
`duration` array contributes no having-predicate (the two translate identically, and
the query with the duration entry has exactly one extra leading having-predicate). -/
theorem C8_duration_first_wins (rest : List (String × JVal)) (d r : JVal)
    (ds : List JVal) (q0 q1 : RecordingsQuery)
    (hfg : (JVal.obj rest).hasKey "filter_group" = true)
    (hnod : (JVal.obj rest).lookup "duration" = none)
    (hr : asRecordingPropertyFilter d = .ok r)
    (hq0 : convert_filters_to_recordings_query (.obj rest) = .ok q0)
    (hq1 : convert_filters_to_recordings_query
            (.obj (("duration", .arr (d :: ds)) :: rest)) = .ok q1) :
    convert_filters_to_recordings_query (.obj (("duration", .arr (d :: ds)) :: rest))
        = convert_filters_to_recordings_query (.obj (("duration", .arr [d]) :: rest))
      ∧ convert_filters_to_recordings_query (.obj (("duration", .arr []) :: rest))
        = convert_filters_to_recordings_query (.obj rest)
      ∧ q1.having_predicates = r :: q0.having_predicates := by
  refine ⟨?_, ?_, ?_⟩
  · simp [convert_filters_to_recordings_query, normalize_filters, durationHaving,
      hfg, hnod, hr, JVal.getD_of_lookup_none hnod]
  · simp [convert_filters_to_recordings_query, normalize_filters, durationHaving,
      hfg, hnod, hr, JVal.getD_of_lookup_none hnod]
  · simp [convert_filters_to_recordings_query, normalize_filters, durationHaving,
      hfg, hnod, hr, JVal.getD_of_lookup_none hnod] at hq0 hq1
    obtain ⟨e, hE, h1⟩ := exceptBind_eq_ok hq1
    rw [hE] at hq0
    rw [exceptBind_ok] at hq0
    obtain ⟨b, hB, h0⟩ := exceptBind_eq_ok hq0
    obtain ⟨b2, hB2, h2⟩ := exceptBind_eq_ok h1
    rw [hB] at hB2
    injection hB2 with hbb
    subst hbb
    injection h0 with h0
    injection h2 with h2
    subst h0
    subst h2
    rfl

/-- Witness for C8: a two-entry duration array on a document with an empty inner
group; only the first entry survives, as the single having-predicate. -/
theorem C8_duration_first_wins_witness :
    convert_filters_to_recordings_query (.obj [
        ("duration", .arr [
          .obj [("type", .str "recording"), ("key", .str "duration"),
                ("value", .num 60), ("operator", .str "gt")],
          .obj [("type", .str "recording"), ("key", .str "active_seconds"),
                ("value", .num 1), ("operator", .str "lt")]]),
        ("filter_group", .obj [("type", .str "AND"),
          ("values", .arr [.obj [("type", .str "AND"), ("values", .arr [])]])])])
        = convert_filters_to_recordings_query (.obj [
        ("duration", .arr [
          .obj [("type", .str "recording"), ("key", .str "duration"),
                ("value", .num 60), ("operator", .str "gt")]]),
        ("filter_group", .obj [("type", .str "AND"),
          ("values", .arr [.obj [("type", .str "AND"), ("values", .arr [])]])])])
      ∧ convert_filters_to_recordings_query (.obj [
        ("duration", .arr []),
        ("filter_group", .obj [("type", .str "AND"),
          ("values", .arr [.obj [("type", .str "AND"), ("values", .arr [])]])])])
        = convert_filters_to_recordings_query (.obj [
        ("filter_group", .obj [("type", .str "AND"),
          ("values", .arr [.obj [("type", .str "AND"), ("values", .arr [])]])])])
      ∧ ({ order := .null, date_from := .null, date_to := .null, properties := [],
           events := [], actions := [], console_log_filters := [],
           having_predicates := [.obj [("key", .str "duration"),
             ("operator", .str "gt"), ("value", .num 60)]],
           filter_test_accounts := .null,
           operand := .str "AND" } : RecordingsQuery).having_predicates
        = .obj [("key", .str "duration"), ("operator", .str "gt"), ("value", .num 60)]
          :: ({ order := .null, date_from := .null, date_to := .null, properties := [],
                events := [], actions := [], console_log_filters := [],
                having_predicates := [], filter_test_accounts := .null,
                operand := .str "AND" } : RecordingsQuery).having_predicates :=
  C8_duration_first_wins
    [("filter_group", .obj [("type", .str "AND"),
       ("values", .arr [.obj [("type", .str "AND"), ("values", .arr [])]])])]
    (.obj [("type", .str "recording"), ("key", .str "duration"),
           ("value", .num 60), ("operator", .str "gt")])
    (.obj [("key", .str "duration"), ("operator", .str "gt"), ("value", .num 60)])
    [.obj [("type", .str "recording"), ("key", .str "active_seconds"),
           ("value", .num 1), ("operator", .str "lt")]]
    _ _ rfl rfl rfl rfl rfl

/-- Witness for C3: one event plus a console-log level filter gives an inner group
of two children. -/
theorem C3_legacy_group_shape_witness :
    ∃ y inner,
      convert_legacy_filters_to_universal_filters
        (.obj [("events", .arr [.obj [("id", .str "$pageview"), ("type", .str "events")]]),
               ("console_logs", .str "warn")]) = .ok y
      ∧ y.getD "filter_group" .null
          = .obj [("type", .str "AND"),
                  ("values", .arr [.obj [("type", .str "AND"), ("values", .arr inner)]])]
      ∧ inner.length
          = [JVal.obj [("id", .str "$pageview"), ("type", .str "events")]].length
            + ([] : List JVal).length + ([] : List JVal).length
            + (if ((JVal.obj [("events", .arr [.obj [("id", .str "$pageview"),
                     ("type", .str "events")]]), ("console_logs", .str "warn")]).getD
                     "console_logs" .null).truthy then 1 else 0)
            + (if ((JVal.obj [("events", .arr [.obj [("id", .str "$pageview"),
                     ("type", .str "events")]]), ("console_logs", .str "warn")]).getD
                     "console_search_query" .null).truthy then 1 else 0) :=
  C3_legacy_group_shape _ _ _ _ rfl rfl rfl rfl rfl (by decide)
